import Mathlib

/-!
Shallow embedding of the einspect typed-record / view layer and its
move / swap / patch engine (`einspect/views/view_base.py`,
`einspect/views/_moves.py`, `einspect/views/unsafe.py`,
`einspect/views/view_type.py`, `einspect/type_orig.py`, `einspect/api.py`).

Raw process memory is modelled as a total function from byte addresses
(integers) to byte values; `ctypes.memmove` becomes a functional range
copy reading the pre-state (C `memmove` overlap semantics).  Reference
counts are the 8 little-endian bytes at offset 0 of an object.
-/

/-- Pointer size in bytes (`api.PTR_SIZE`, 64-bit build). -/
def PTR_SIZE : Nat := 8

/-- Allocator alignment (`api.ALIGNMENT`, 64-bit build). -/
def ALIGNMENT : Nat := 16

/-- `api.align_size`: `(size + alignment - 1) & ~(alignment - 1)`.
For unbounded nonnegative integers, masking off the low bits of
`size + 15` is subtracting its remainder mod 16. -/
def align_size (size : Nat) : Nat :=
  (size + ALIGNMENT - 1) - (size + ALIGNMENT - 1) % ALIGNMENT

/-- Process memory: byte value at each address. -/
abbrev Mem := Int → Nat

/-- Single-byte store. -/
def memUpd (m : Mem) (a : Int) (v : Nat) : Mem :=
  fun x => if x = a then v else m x

/-- `ctypes.memmove(dst, src, n)`: the `n` bytes at `src` (read from the
pre-state, as C `memmove` guarantees for overlaps) land at `dst`. -/
def memmove (m : Mem) (dst src : Int) (n : Nat) : Mem :=
  fun x => if dst ≤ x ∧ x < dst + (n : Int) then m (src + (x - dst)) else m x

/-- Little-endian read of `k` bytes at `a`. -/
def readBytesLE (m : Mem) (a : Int) : Nat → Nat
  | 0 => 0
  | k + 1 => m a % 256 + 256 * readBytesLE m (a + 1) k

/-- Little-endian write of `k` bytes of `v` starting at `a`. -/
def writeBytesLE (m : Mem) (a : Int) (v : Nat) : Nat → Mem
  | 0 => m
  | k + 1 => writeBytesLE (memUpd m a (v % 256)) (a + 1) (v / 256) k

/-- Descriptor of one live object record, as the view machinery reads it
from the struct overlay: its address, its content-derived true footprint
(`PyObject.mem_size`), whether it is a `PyASCIIObject` (string), the
`is_gc()` status of its type, the absolute address of its instance-dict
pointer slot when `instance_dict()` is non-null, and the
`TpFlags.MANAGED_DICT` bit of its type. -/
structure PyObj where
  address : Int
  mem_size : Nat
  isAscii : Bool
  gcFlag : Bool
  instDict : Option Int
  managedDict : Bool

/-- `Py_IncRef` on the header count: the 8-byte little-endian word at
offset 0 is incremented (mod 2^64). -/
def incRef (m : Mem) (o : PyObj) : Mem :=
  writeBytesLE m o.address
    ((readBytesLE m o.address PTR_SIZE + 1) % 2 ^ (8 * PTR_SIZE)) PTR_SIZE

/-- Byte offset of the `hash` field of `PyASCIIObject`
(after `ob_refcnt`, `ob_type`, `length`). -/
def HASH_OFFSET : Nat := 24

/-- Byte offset of the word holding the `interned` bit-field of
`PyASCIIObject` (the `c_uint` after `hash`; `interned` is its lowest bit). -/
def INTERNED_OFFSET : Nat := 32

/-- The un-interning prologue of `_moves.move`: for a `PyASCIIObject`,
`interned = 0` clears the low bit of the bit-field word and `hash = -1`
sets the 8 hash bytes to `0xFF`. -/
def unIntern (m : Mem) (o : PyObj) : Mem :=
  if o.isAscii then
    fun x =>
      if x = o.address + (INTERNED_OFFSET : Int) then m x &&& 254
      else if o.address + (HASH_OFFSET : Int) ≤ x ∧
          x < o.address + (HASH_OFFSET : Int) + (PTR_SIZE : Int) then 255
      else m x
  else m

/-- `_moves.move(dst, src, offset, inst_dict)`: un-intern both ends if
strings; if `inst_dict` and the source has a non-managed instance dict,
copy the dict pointer slot by its source-relative offset; finally copy
`src.mem_size - offset` bytes starting at `offset` in both records.
(The managed-dict branch finishes with a `SetAttr("__dict__", ...)`
runtime primitive, an attribute-level operation outside the byte model;
theorems below take `instDict = none` where it matters.) -/
def move (m : Mem) (dst src : PyObj) (offset : Nat) (instDictF : Bool) : Mem :=
  let m1 := unIntern m src
  let m2 := unIntern m1 dst
  let m3 :=
    if instDictF then
      match src.instDict with
      | some dictAddr =>
        if src.managedDict then m2
        else memmove m2 (dst.address + (dictAddr - src.address)) dictAddr PTR_SIZE
      | none => m2
    else m2
  memmove m3 (dst.address + (offset : Int)) (src.address + (offset : Int))
    (src.mem_size - offset)

/-- `view_base.View`: one record overlay, the `mem_allocated` bound cached
at construction, the per-view capability flag, and the dropped marker
(in the source, `drop()` swaps `_pyobject`/`_base` for a
`DroppedReference` sentinel; here a flag each accessor consults). -/
structure View where
  obj : PyObj
  memAllocated : Nat
  localUnsafeFlag : Bool
  dropped : Bool

/-- `View.__init__`: the allocated footprint is cached once, as
`align_size(mem_size)`. -/
def mkView (o : PyObj) : View :=
  { obj := o, memAllocated := align_size o.mem_size
    localUnsafeFlag := false, dropped := false }

/-- `UnsafeContext._unsafe`: global flag OR-ed with the view-local flag. -/
def View.isUnsafeCtx (v : View) (g : Bool) : Bool :=
  g || v.localUnsafeFlag

/-- The three rejection reasons of `_moves.check_move`. -/
inductive MoveError where
  | nonGcIntoGc
  | dictOutOfBounds
  | cannotFit
  deriving DecidableEq

/-- `_moves.check_move(dst, src)`: non-gc into gc is rejected; the
destination bound is widened by a positive-offset dict slot; a source
instance dict must relocate within bounds (managed-to-managed excepted);
finally `src.mem_size` must fit in the (possibly widened) destination
allocation. -/
def check_move (dst src : View) : Option MoveError :=
  if src.obj.gcFlag = false ∧ dst.obj.gcFlag = true then some MoveError.nonGcIntoGc
  else
    let da : Nat × Int :=
      match dst.obj.instDict with
      | none => (dst.memAllocated, 0)
      | some dictAddr =>
        if dst.obj.managedDict then (dst.memAllocated, -1)
        else
          let off := dictAddr - dst.obj.address
          if 0 < off then (max (off.toNat + PTR_SIZE) dst.memAllocated, off)
          else (dst.memAllocated, off)
    let dstAllocated := da.1
    let dstOffset := da.2
    let dictBad : Bool :=
      match src.obj.instDict with
      | none => false
      | some srcDictAddr =>
        if src.obj.managedDict = true ∧ dstOffset = -1 then false
        else
          let srcOffset := srcDictAddr - src.obj.address
          decide ((srcOffset < 0 ∧ srcOffset ≠ dstOffset) ∨
            (0 < srcOffset ∧ (dstAllocated : Int) < srcOffset + (PTR_SIZE : Int)))
    if dictBad then some MoveError.dictOutOfBounds
    else if dstAllocated < src.obj.mem_size then some MoveError.cannotFit
    else none

/-- `View.move_from(self, other)`: when no capability context is active
the safety checks run and a failure aborts with the untouched memory;
otherwise (or on success) the move runs (`other.move_to(self)` at offset
`PTR_SIZE`), then `other` is IncRef-ed, then the new strong reference to
the object at `self`'s address is IncRef-ed. -/
def move_from (g : Bool) (m : Mem) (self other : View) : Mem × Option MoveError :=
  if self.isUnsafeCtx g = false then
    match check_move self other with
    | some e => (m, some e)
    | none =>
      (incRef (incRef (move m self.obj other.obj PTR_SIZE true) other.obj)
        self.obj, none)
  else
    (incRef (incRef (move m self.obj other.obj PTR_SIZE true) other.obj)
      self.obj, none)

/-- The memory effect of `View.swap(self, other)` once the checks have
passed: IncRef `other`; snapshot `other`'s `mem_size` bytes into a fresh
buffer at `bufAddr` (allocated with `other.mem_allocated` capacity);
move `self` onto `other`'s record; overlay `other`'s struct type on the
buffer and move that onto `self`'s record with `inst_dict=False`;
finally restore `other`'s non-managed instance-dict pointer into the new
record at `self`'s address (the managed case goes through the `SetAttr`
runtime primitive, outside the byte model). -/
def swapRaw (m : Mem) (self other : View) (bufAddr : Int) : Mem :=
  let m1 := incRef m other.obj
  let m2 := memmove m1 bufAddr other.obj.address other.obj.mem_size
  let m3 := move m2 other.obj self.obj PTR_SIZE true
  let bufObj : PyObj := { other.obj with address := bufAddr }
  let m4 := move m3 self.obj bufObj PTR_SIZE false
  match other.obj.instDict with
  | none => m4
  | some dictAddr =>
    if other.obj.managedDict then m4
    else
      writeBytesLE m4 (self.obj.address + (dictAddr - other.obj.address))
        (readBytesLE m1 dictAddr PTR_SIZE) PTR_SIZE

/-- `View.swap`: outside a capability context, `check_move` runs in both
directions and a failure aborts before any byte is written. -/
def swapChecked (g : Bool) (m : Mem) (self other : View) (bufAddr : Int) :
    Mem × Option MoveError :=
  if self.isUnsafeCtx g = false then
    match check_move self other with
    | some e => (m, some e)
    | none =>
      match check_move other self with
      | some e => (m, some e)
      | none => (swapRaw m self other bufAddr, none)
  else (swapRaw m self other bufAddr, none)

/-- Two successive checked swaps of the same pair of addresses.  After the
first swap the two records have exchanged contents, so the fresh views
constructed for the second swap carry each other's content-derived
descriptors at the original addresses (with `mem_allocated` re-cached). -/
def doubleSwapChecked (m : Mem) (a b : PyObj) (b1 b2 : Int) :
    Mem × Option MoveError × Option MoveError :=
  let r1 := swapChecked false m (mkView a) (mkView b) b1
  let a2 : PyObj := { b with address := a.address }
  let b2obj : PyObj := { a with address := b.address }
  let r2 := swapChecked false r1.1 (mkView a2) (mkView b2obj) b2
  (r2.1, r1.2, r2.2)

/-- The capability flags (`UnsafeContext`): the class-level global flag
and one view's local flag. -/
structure UnsafeCtxState where
  globalFlag : Bool
  localFlag : Bool
  deriving DecidableEq

/-- Entry of `UnsafeContext.unsafe()`: `self._local_unsafe = True`. -/
def enterLocalScope (s : UnsafeCtxState) : UnsafeCtxState :=
  { s with localFlag := true }

/-- Exit of `UnsafeContext.unsafe()` (its `finally`):
`self._local_unsafe = False`, unconditionally. -/
def exitLocalScope (s : UnsafeCtxState) : UnsafeCtxState :=
  { s with localFlag := false }

/-- Entry of `unsafe.global_unsafe()`: `UnsafeContext._global_unsafe = True`. -/
def enterGlobalScope (s : UnsafeCtxState) : UnsafeCtxState :=
  { s with globalFlag := true }

/-- Exit of `unsafe.global_unsafe()`:
`UnsafeContext._global_unsafe = False`, unconditionally. -/
def exitGlobalScope (s : UnsafeCtxState) : UnsafeCtxState :=
  { s with globalFlag := false }

/-- `UnsafeContext._unsafe`: `_global_unsafe or _local_unsafe`. -/
def isActive (s : UnsafeCtxState) : Bool :=
  s.globalFlag || s.localFlag

/-- The capability error raised by the `@unsafe` decorator. -/
inductive UErr where
  | unsafeErrorE
  deriving DecidableEq

/-- The `@unsafe` decorator on view setters (`unsafe.unsafe`): before the
wrapped write `f` runs, `self._unsafe` is consulted; without an active
context the call raises `UnsafeError` and `f` is never invoked, so the
memory is returned untouched. -/
def unsafeGate (g : Bool) (v : View) (f : Mem → Mem) (m : Mem) :
    Mem × Option UErr :=
  if v.isUnsafeCtx g then (f m, none) else (m, some UErr.unsafeErrorE)

/-- `View.ref_count` setter: gated write of the header count word. -/
def refCountSet (g : Bool) (v : View) (m : Mem) (value : Nat) : Mem × Option UErr :=
  unsafeGate g v (fun mm => writeBytesLE mm v.obj.address value PTR_SIZE) m

/-- `VarView.size` setter: a gated write of `ob_size`, modelled by its
effect on the content-derived `mem_size` of the record; the view's cached
`memAllocated` is not recomputed. -/
def sizeSet (g : Bool) (v : View) (newMemSize : Nat) : View × Option UErr :=
  if v.isUnsafeCtx g then
    ({ v with obj := { v.obj with mem_size := newMemSize } }, none)
  else (v, some UErr.unsafeErrorE)

/-- Error taxonomy for field access through a view. -/
inductive AccessError where
  | droppedReference
  | attributeErr
  deriving DecidableEq

/-- The record-field accessors of `View` (and `VarView`). -/
inductive FieldAccessor where
  | refCount
  | typePointer
  | memSize
  | obSize
  | instDictF
  | baseObj
  deriving DecidableEq

/-- `View.drop()`: replaces `_pyobject` and `_base` by the
`DroppedReference` sentinel; every later attribute access through either
goes to the sentinel. -/
def dropView (v : View) : View :=
  { v with dropped := true }

/-- Field access through a view: a dropped view's record reference is the
`DroppedReference` sentinel, whose `__getattr__` raises
`DroppedReferenceError`; otherwise the field is read from the record
(header words from memory, sizes from the struct). -/
def accessField (m : Mem) (v : View) (f : FieldAccessor) : Except AccessError Int :=
  if v.dropped then Except.error AccessError.droppedReference
  else
    match f with
    | FieldAccessor.refCount => Except.ok (readBytesLE m v.obj.address PTR_SIZE)
    | FieldAccessor.typePointer =>
      Except.ok (readBytesLE m (v.obj.address + (PTR_SIZE : Int)) PTR_SIZE)
    | FieldAccessor.memSize => Except.ok (v.obj.mem_size : Int)
    | FieldAccessor.obSize =>
      Except.ok (readBytesLE m (v.obj.address + 2 * (PTR_SIZE : Int)) PTR_SIZE)
    | FieldAccessor.instDictF =>
      Except.ok (match v.obj.instDict with | some a => a | none => 0)
    | FieldAccessor.baseObj => Except.ok v.obj.address

/-- The four protocol sub-structures (`tp_as_async`, `tp_as_number`,
`tp_as_mapping`, `tp_as_sequence`). -/
inductive SlotKind where
  | asyncK
  | numberK
  | mappingK
  | sequenceK
  deriving DecidableEq

/-- `ctypes.sizeof` of the corresponding PyMethods struct (64-bit):
`PyAsyncMethods` 4 pointers, `PyNumberMethods` 36, `PyMappingMethods` 3,
`PySequenceMethods` 10. -/
def slotStructSize : SlotKind → Nat
  | SlotKind.asyncK => 4 * PTR_SIZE
  | SlotKind.numberK => 36 * PTR_SIZE
  | SlotKind.mappingK => 3 * PTR_SIZE
  | SlotKind.sequenceK => 10 * PTR_SIZE

/-- The protocol sub-structure pointers of one type record, the structs
allocated so far (address, bytes) kept alive in `PY_METHOD_STRUCTS`, and
a bump allocator supplying fresh addresses. -/
structure TypeSlots where
  asyncPtr : Option Nat
  numberPtr : Option Nat
  mappingPtr : Option Nat
  sequencePtr : Option Nat
  heap : List (Nat × List Nat)
  nextAddr : Nat
  deriving DecidableEq

/-- The sub-structure pointer for a slot kind. -/
def getSlotPtr (t : TypeSlots) : SlotKind → Option Nat
  | SlotKind.asyncK => t.asyncPtr
  | SlotKind.numberK => t.numberPtr
  | SlotKind.mappingK => t.mappingPtr
  | SlotKind.sequenceK => t.sequencePtr

/-- Store a sub-structure pointer. -/
def setSlotPtr (t : TypeSlots) (k : SlotKind) (a : Nat) : TypeSlots :=
  match k with
  | SlotKind.asyncK => { t with asyncPtr := some a }
  | SlotKind.numberK => { t with numberPtr := some a }
  | SlotKind.mappingK => { t with mappingPtr := some a }
  | SlotKind.sequenceK => { t with sequencePtr := some a }

/-- The per-slot body of `view_type._allocate_methods`: if the pointer is
null, construct a zero-initialized PyMethods struct (ctypes zeroes new
instances), retain it, and store its address; otherwise do nothing. -/
def allocateOne (t : TypeSlots) (k : SlotKind) : TypeSlots :=
  match getSlotPtr t k with
  | some _ => t
  | none =>
    let addr := t.nextAddr
    { setSlotPtr t k addr with
      heap := (addr, List.replicate (slotStructSize k) 0) :: t.heap
      nextAddr := addr + slotStructSize k }

/-- `TypeView.alloc_slot` restricted to one type (the `subclasses=True`
default repeats the same per-type allocation on each subclass). -/
def allocSlot (t : TypeSlots) (ks : List SlotKind) : TypeSlots :=
  ks.foldl allocateOne t

/-- Error raised out of a patched write (`setattr_safe` and friends). -/
inductive PatchErr where
  | attrErr
  deriving DecidableEq

/-- First-match lookup in an association list (Python dict read). -/
def lookupA {α : Type} : List (Nat × α) → Nat → Option α
  | [], _ => none
  | (k, v) :: t, n => if k = n then some v else lookupA t n

/-- Dict store: the new binding shadows any earlier one. -/
def insertA {α : Type} (l : List (Nat × α)) (k : Nat) (v : α) :
    List (Nat × α) :=
  (k, v) :: l

/-- Dict delete: every binding of the key goes away. -/
def removeA {α : Type} : List (Nat × α) → Nat → List (Nat × α)
  | [], _ => []
  | (k, v) :: t, n => if k = n then removeA t n else (k, v) :: removeA t n

/-- `dict.setdefault`: keep an existing binding, else insert. -/
def addDefault {α : Type} (l : List (Nat × α)) (k : Nat) (v : α) :
    List (Nat × α) :=
  match lookupA l k with
  | some _ => l
  | none => insertA l k v

/-- The patching state of one type: its own attribute dict, the resolved
fallback through its MRO (never mutated by the patch engine), the
`type_orig._cache` entries for this type (`none` is the `MISSING`
sentinel), the `type_orig._impls` name set, and the immutability flag
(`TpFlags.IMMUTABLETYPE`). -/
structure PatchState where
  own : List (Nat × Nat)
  inherited : Nat → Option Nat
  cache : List (Nat × Option Nat)
  impls : List Nat
  immutable : Bool

/-- `getattr(type_, name)` as the cache layer sees it: the type's own
dict first, then MRO resolution. -/
def resolve (s : PatchState) (n : Nat) : Option Nat :=
  match lookupA s.own n with
  | some v => some v
  | none => s.inherited n

/-- `TypeView.as_mutable`: an already-mutable type is passed through; an
immutable one has the flag cleared for the body, and set back only on
the normal-completion path — the generator has no `try`/`finally`, so an
exception in the body propagates without the restore running. -/
def asMutable (body : PatchState → PatchState × Option PatchErr) (s : PatchState) :
    PatchState × Option PatchErr :=
  if s.immutable = false then body s
  else
    let r := body { s with immutable := false }
    match r.2 with
    | none => ({ r.1 with immutable := true }, none)
    | some e => (r.1, some e)

/-- `type_orig.add_impls`. -/
def addImplsT (s : PatchState) (n : Nat) : PatchState :=
  { s with impls := if n ∈ s.impls then s.impls else n :: s.impls }

/-- `type_orig.remove_impls`. -/
def removeImplsT (s : PatchState) (n : Nat) : PatchState :=
  { s with impls := s.impls.filter (fun x => x ≠ n) }

/-- `type_orig.try_cache_attr` with its defaults (`flag_missing=True`,
`overwrite=False`): resolve the current value (the `MISSING` sentinel,
here `none`, when absent) and `setdefault` it into the cache.  The
`__new__` special case (wrapping in `TypeNewWrapper`) is outside this
model; theorems use plain attribute names. -/
def tryCacheAttrT (s : PatchState) (n : Nat) : PatchState :=
  { s with cache := addDefault s.cache n (resolve s n) }

/-- `TypeView.__setitem__` for one plain (non-slot) attribute name:
record the name in `_impls`, capture the original on first overwrite,
then write through `setattr_safe` inside `as_mutable` (the plain-name
branch of `setattr_safe` is `SetAttr`, which cannot fail here). -/
def setItemT (s : PatchState) (n : Nat) (v : Nat) : PatchState :=
  let s1 := addImplsT s n
  let s2 := tryCacheAttrT s1 n
  (asMutable (fun t => ({ t with own := insertA t.own n v }, none)) s2).1

/-- `TypeView.__delitem__` for one plain attribute name. -/
def delItemT (s : PatchState) (n : Nat) : PatchState :=
  let s1 := addImplsT s n
  let s2 := tryCacheAttrT s1 n
  (asMutable (fun t => ({ t with own := removeA t.own n }, none)) s2).1

/-- `TypeView.restore` for one name: requires the name in `_impls`; a
cached original is written back through `__setitem__`
(`normalize_slot_attr` is the identity on plain values), the `MISSING`
sentinel deletes the attribute and clears the `_impls` record, and a
missing cache entry also deletes; an unknown name raises. -/
def restoreT (s : PatchState) (n : Nat) : PatchState × Option PatchErr :=
  if n ∈ s.impls then
    match lookupA s.cache n with
    | some (some v) => (setItemT s n v, none)
    | some none => (removeImplsT (delItemT s n) n, none)
    | none => (removeImplsT (delItemT s n) n, none)
  else (s, some PatchErr.attrErr)

/-- A plain 48-byte record at address 0 (no string fields, non-gc, no
instance dict). -/
def plainObjA : PyObj :=
  { address := 0, mem_size := 48, isAscii := false, gcFlag := false
    instDict := none, managedDict := false }

/-- A plain 48-byte record at address 100. -/
def plainObjB : PyObj :=
  { address := 100, mem_size := 48, isAscii := false, gcFlag := false
    instDict := none, managedDict := false }

/-- A 17-byte record at address 100: its cached allocation is
`align_size 17 = 32`, too small to receive 48 bytes. -/
def smallObjB : PyObj :=
  { address := 100, mem_size := 17, isAscii := false, gcFlag := false
    instDict := none, managedDict := false }

/-- The view of `smallObjB` with its local capability flag raised
(inside `with v.unsafe():`). -/
def smallViewUnsafeCtx : View :=
  { mkView smallObjB with localUnsafeFlag := true }

/-- A 48-byte string (`PyASCIIObject`) record at address 0. -/
def asciiObjA : PyObj :=
  { address := 0, mem_size := 48, isAscii := true, gcFlag := false
    instDict := none, managedDict := false }

/-- A 48-byte string record at address 100. -/
def asciiObjB : PyObj :=
  { address := 100, mem_size := 48, isAscii := true, gcFlag := false
    instDict := none, managedDict := false }

/-- A 16-byte record at address 0. -/
def tinyObjA : PyObj :=
  { address := 0, mem_size := 16, isAscii := false, gcFlag := false
    instDict := none, managedDict := false }

/-- A 16-byte record at address 100. -/
def tinyObjB : PyObj :=
  { address := 100, mem_size := 16, isAscii := false, gcFlag := false
    instDict := none, managedDict := false }

/-- Memory holding byte 9 at address 8 and zero elsewhere. -/
def mem8is9 : Mem := fun x => if x = 8 then 9 else 0

/-- Memory holding byte 7 at address 24 (the hash field of a string at
address 0) and zero elsewhere. -/
def memHash7 : Mem := fun x => if x = 24 then 7 else 0

/-- Memory holding byte 5 at address 8 and zero elsewhere. -/
def memPay5 : Mem := fun x => if x = 8 then 5 else 0

/-- A fresh patch state: empty own dict, nothing inherited, empty cache
and impls, immutable type. -/
def patchS0 : PatchState :=
  { own := [], inherited := fun _ => none, cache := [], impls := []
    immutable := true }

/-- A patched write that raises (`setattr_safe` failing). -/
def bodyFail : PatchState → PatchState × Option PatchErr :=
  fun t => (t, some PatchErr.attrErr)

/-- A patched write that succeeds without touching anything. -/
def bodyKeep : PatchState → PatchState × Option PatchErr :=
  fun t => (t, none)

/-- A type record with all four protocol sub-structure pointers null. -/
def slotsEmpty : TypeSlots :=
  { asyncPtr := none, numberPtr := none, mappingPtr := none
    sequencePtr := none, heap := [], nextAddr := 4096 }

theorem memmove_in (m : Mem) (d s : Int) (n : Nat) (x : Int)
    (h1 : d ≤ x) (h2 : x < d + (n : Int)) :
    memmove m d s n x = m (s + (x - d)) := by
  simp only [memmove]
  rw [if_pos ⟨h1, h2⟩]

theorem memmove_out (m : Mem) (d s : Int) (n : Nat) (x : Int)
    (h : x < d ∨ d + (n : Int) ≤ x) :
    memmove m d s n x = m x := by
  simp only [memmove]
  rw [if_neg]
  intro hc
  omega

theorem writeBytesLE_out (k : Nat) :
    ∀ (m : Mem) (a : Int) (v : Nat) (x : Int),
      x < a ∨ a + (k : Int) ≤ x → writeBytesLE m a v k x = m x := by
  induction k with
  | zero => intro m a v x _; rfl
  | succ k ih =>
    intro m a v x h
    show writeBytesLE (memUpd m a (v % 256)) (a + 1) (v / 256) k x = m x
    rw [ih _ _ _ _ (by push_cast at h ⊢; omega)]
    simp only [memUpd]
    rw [if_neg (by omega)]

theorem incRef_out (m : Mem) (o : PyObj) (x : Int)
    (h : x < o.address ∨ o.address + (PTR_SIZE : Int) ≤ x) :
    incRef m o x = m x :=
  writeBytesLE_out PTR_SIZE m o.address _ x h

theorem unIntern_plain (m : Mem) (o : PyObj) (h : o.isAscii = false) :
    unIntern m o = m := by
  simp [unIntern, h]

theorem move_plain (m : Mem) (dst src : PyObj) (instd : Bool)
    (h1 : src.isAscii = false) (h2 : dst.isAscii = false)
    (h3 : src.instDict = none) :
    move m dst src PTR_SIZE instd =
      memmove m (dst.address + (PTR_SIZE : Int)) (src.address + (PTR_SIZE : Int))
        (src.mem_size - PTR_SIZE) := by
  cases instd <;> simp [move, unIntern_plain, h1, h2, h3]

theorem check_move_noDict (dst src : View)
    (h1 : dst.obj.instDict = none) (h2 : src.obj.instDict = none) :
    check_move dst src =
      if src.obj.gcFlag = false ∧ dst.obj.gcFlag = true then
        some MoveError.nonGcIntoGc
      else if dst.memAllocated < src.obj.mem_size then some MoveError.cannotFit
      else none := by
  simp [check_move, h1, h2]

theorem align_size_spec (s : Nat) :
    s ≤ align_size s ∧ ALIGNMENT ∣ align_size s ∧
      ∀ k, s ≤ k → ALIGNMENT ∣ k → align_size s ≤ k := by
  refine ⟨?_, ?_, ?_⟩
  · simp only [align_size, ALIGNMENT]
    omega
  · simp only [align_size, ALIGNMENT]
    omega
  · intro k hk hd
    simp only [align_size, ALIGNMENT] at hd ⊢
    omega

/-- C4: a write to an unsafe-classified field (ref_count, type, size)
attempted while neither the view-local nor the global capability flag is
set raises `UnsafeError` and performs no write at all: the `@unsafe`
decorator checks `self._unsafe` before invoking the wrapped setter, so
the memory (and the view) come back byte-for-byte unchanged. -/
theorem c4_ungated_write_rejected (g : Bool) (v : View) (f : Mem → Mem)
    (m : Mem) (value n : Nat) (h : v.isUnsafeCtx g = false) :
    unsafeGate g v f m = (m, some UErr.unsafeErrorE) ∧
      refCountSet g v m value = (m, some UErr.unsafeErrorE) ∧
      sizeSet g v n = (v, some UErr.unsafeErrorE) := by
  refine ⟨?_, ?_, ?_⟩ <;> simp [unsafeGate, refCountSet, sizeSet, h]

/-- C4 witness: the concrete 48-byte view outside any capability context. -/
theorem c4_witness :
    refCountSet false (mkView plainObjA) mem8is9 5 =
      (mem8is9, some UErr.unsafeErrorE) :=
  (c4_ungated_write_rejected false (mkView plainObjA)
    (fun mm => mm) mem8is9 5 0 rfl).2.1

/-- C5 counterexample: with an outer `unsafe()` scope active on a view
(local flag true), entering and exiting an inner scope on the same view
does not restore the state observed on entry — the generator's `finally`
sets the flag to `False` unconditionally, clearing the outer scope. -/
theorem c5_counterexample :
    exitLocalScope (enterLocalScope
        (enterLocalScope { globalFlag := false, localFlag := false })) ≠
      enterLocalScope { globalFlag := false, localFlag := false } := by
  decide

/-- C5 (amended): exiting a scope unconditionally clears its flag — it
does not restore the state observed on entry, so an outer scope on the
same flag is deactivated when an inner scope exits.  Only scopes on
distinct flags compose: a local scope nested inside a global scope
leaves the capability active after the local exit. -/
theorem c5_exit_clears (s : UnsafeCtxState) :
    exitLocalScope s = { s with localFlag := false } ∧
      exitGlobalScope s = { s with globalFlag := false } ∧
      isActive (exitLocalScope (enterLocalScope (enterLocalScope s))) =
        s.globalFlag ∧
      isActive (exitLocalScope (enterLocalScope (enterGlobalScope s))) = true := by
  cases s
  simp [exitLocalScope, exitGlobalScope, enterLocalScope, enterGlobalScope,
    isActive]

/-- C7 counterexample: on an immutable type, a write that raises inside
`as_mutable` leaves the immutability flag cleared — the generator has no
`try`/`finally`, so the restore after `yield` never runs. -/
theorem c7_counterexample :
    (asMutable bodyFail patchS0).1.immutable ≠ patchS0.immutable := by
  decide

/-- C7 (amended): `as_mutable` restores the immutability flag only on
the normal-completion path; when the wrapped write raises on an
immutable type, the flag is left cleared (the type stays mutable). -/
theorem c7_restore_on_success
    (body : PatchState → PatchState × Option PatchErr) (s : PatchState)
    (hbody : ∀ t, ((body t).1).immutable = t.immutable) :
    ((asMutable body s).2 = none →
        (asMutable body s).1.immutable = s.immutable) ∧
      (s.immutable = true → (asMutable body s).2 ≠ none →
        (asMutable body s).1.immutable = false) := by
  cases hs : s.immutable
  · constructor
    · intro _
      simp [asMutable, hs, hbody s]
    · intro ht
      simp at ht
  · constructor
    · intro hn
      simp only [asMutable, hs] at hn ⊢
      rcases hr : (body { s with immutable := false }).2 with _ | e
      · simp [hr, hs]
      · simp [hr] at hn
    · intro _ hn
      simp only [asMutable, hs] at hn ⊢
      rcases hr : (body { s with immutable := false }).2 with _ | e
      · simp [hr] at hn
      · simp only [hr]
        exact hbody { s with immutable := false }

/-- C7 witness: a succeeding write on the fresh immutable patch state
comes back with the flag restored. -/
theorem c7_witness :
    (asMutable bodyKeep patchS0).1.immutable = patchS0.immutable :=
  (c7_restore_on_success bodyKeep patchS0 (fun _ => rfl)).1 rfl

/-- C8: after `drop()`, every record-field accessor of the view raises
`DroppedReferenceError` (the sentinel installed over `_pyobject` and
`_base` raises on any attribute access), an error distinct from an
ordinary `AttributeError`, instead of returning stale data. -/
theorem c8_dropped_access (m : Mem) (v : View) (f : FieldAccessor) :
    accessField m (dropView v) f = Except.error AccessError.droppedReference ∧
      AccessError.droppedReference ≠ AccessError.attributeErr := by
  constructor
  · simp [accessField, dropView]
  · decide

/-- C9: allocating the numeric PyMethods sub-structure on a type whose
pointer is null stores a pointer to a zero-initialized struct, and a
second call finds the pointer non-null, allocates nothing, and leaves
the state (pointer included) identical. -/
theorem c9_alloc_idempotent (t : TypeSlots)
    (h : getSlotPtr t SlotKind.numberK = none) :
    getSlotPtr (allocSlot t [SlotKind.numberK]) SlotKind.numberK =
        some t.nextAddr ∧
      (allocSlot t [SlotKind.numberK]).heap =
        (t.nextAddr, List.replicate (slotStructSize SlotKind.numberK) 0) ::
          t.heap ∧
      allocSlot (allocSlot t [SlotKind.numberK]) [SlotKind.numberK] =
        allocSlot t [SlotKind.numberK] := by
  have h' : t.numberPtr = none := h
  simp [allocSlot, allocateOne, getSlotPtr, setSlotPtr, h']

/-- C9 witness: the all-null type record. -/
theorem c9_witness :
    getSlotPtr (allocSlot slotsEmpty [SlotKind.numberK]) SlotKind.numberK =
      some slotsEmpty.nextAddr :=
  (c9_alloc_idempotent slotsEmpty rfl).1

/-- C10: `mem_allocated` is computed once at view construction as
`align_size(mem_size)` — the least multiple of 16 at least `mem_size`,
so `mem_size ≤ mem_allocated` at construction — it is cached and not
recomputed after a later (capability-gated) `ob_size` write changes
`mem_size`, and `check_move`'s capacity comparison reads exactly this
stored construction-time bound (it never consults the destination's
current `mem_size`). -/
theorem c10_mem_allocated (o : PyObj) (n : Nat) (g : Bool) (src : View) :
    (mkView o).memAllocated = align_size o.mem_size ∧
      o.mem_size ≤ (mkView o).memAllocated ∧
      ALIGNMENT ∣ (mkView o).memAllocated ∧
      (∀ k, o.mem_size ≤ k → ALIGNMENT ∣ k → (mkView o).memAllocated ≤ k) ∧
      (sizeSet g (mkView o) n).1.memAllocated = (mkView o).memAllocated ∧
      check_move (sizeSet true (mkView o) n).1 src =
        check_move (mkView o) src := by
  obtain ⟨hle, hdvd, hmin⟩ := align_size_spec o.mem_size
  refine ⟨rfl, hle, hdvd, hmin, ?_, ?_⟩
  · by_cases hg : (mkView o).isUnsafeCtx g = true <;> simp [sizeSet, hg]
  · simp [sizeSet, check_move, mkView, View.isUnsafeCtx]

/-- C10 witness: a 17-byte record is allocated 32 bytes at construction. -/
theorem c10_witness :
    (mkView smallObjB).memAllocated ≤ 32 :=
  (c10_mem_allocated smallObjB 0 false (mkView plainObjA)).2.2.2.1 32
    (by decide) (by decide)

/-- C1 counterexample: with the destination view's local capability flag
raised, `move_from` skips `check_move` entirely — a 48-byte source is
moved into a destination whose cached allocation is only
`align_size 17 = 32` bytes, no error is raised, and destination bytes
are overwritten. -/
theorem c1_counterexample :
    (move_from false mem8is9 smallViewUnsafeCtx (mkView plainObjA)).2 = none ∧
      (move_from false mem8is9 smallViewUnsafeCtx (mkView plainObjA)).1 108 ≠
        mem8is9 108 := by
  constructor
  · decide
  · decide

/-- C1 (amended): outside any capability context, a move whose source
footprint exceeds the destination's cached allocated footprint (between
records without instance dicts, the gc compatibility check passing) is
rejected with the out-of-bounds `cannot fit` error before any byte is
written — the untouched memory is returned; an active capability
context, however, skips this check entirely and the move proceeds. -/
theorem c1_fit_rejected_outside_ctx (m : Mem) (self other : View)
    (hflag : self.localUnsafeFlag = false)
    (hd1 : self.obj.instDict = none) (hd2 : other.obj.instDict = none)
    (hgc : ¬(other.obj.gcFlag = false ∧ self.obj.gcFlag = true))
    (hfit : self.memAllocated < other.obj.mem_size) :
    move_from false m self other = (m, some MoveError.cannotFit) := by
  have hc : check_move self other = some MoveError.cannotFit := by
    rw [check_move_noDict self other hd1 hd2]
    rw [if_neg hgc, if_pos hfit]
  simp [move_from, View.isUnsafeCtx, hflag, hc]

/-- C1 witness: the 48-byte source against the 32-byte-allocated
destination, outside any capability context. -/
theorem c1_witness :
    move_from false mem8is9 (mkView smallObjB) (mkView plainObjA) =
      (mem8is9, some MoveError.cannotFit) :=
  c1_fit_rejected_outside_ctx mem8is9 (mkView smallObjB) (mkView plainObjA)
    rfl rfl rfl (by decide) (by decide)

/-- C2 counterexample: for a string source, `move` resets the cached
hash (`hash = -1`, bytes `0xFF`) before the copy, so the destination's
hash field after the move is `255`, not the value `7` previously
readable from the source — the claim's "every field equals the value
previously readable from src" fails at the hash field. -/
theorem c2_counterexample :
    move memHash7 asciiObjB asciiObjA PTR_SIZE true 124 ≠ memHash7 24 := by
  decide

/-- C2 (amended): for non-string records whose source carries no
instance dict, `move(dst, src)` copies exactly `src.mem_size - PTR_SIZE`
bytes starting at offset `PTR_SIZE` in both records — every byte of the
destination in that range afterwards equals the byte previously readable
at the same offset of the source — and the destination's header
reference-count word (the first `PTR_SIZE` bytes) is not copied; for
string records the interned/hash identity fields are invalidated before
the copy rather than preserved. -/
theorem c2_move_copies (m : Mem) (dst src : PyObj) (o : Nat)
    (h1 : src.isAscii = false) (h2 : dst.isAscii = false)
    (h3 : src.instDict = none) :
    (PTR_SIZE ≤ o → o < src.mem_size →
        move m dst src PTR_SIZE true (dst.address + (o : Int)) =
          m (src.address + (o : Int))) ∧
      (o < PTR_SIZE →
        move m dst src PTR_SIZE true (dst.address + (o : Int)) =
          m (dst.address + (o : Int))) := by
  rw [move_plain m dst src true h1 h2 h3]
  constructor
  · intro ho1 ho2
    rw [memmove_in]
    · congr 1
      ring
    · simp only [PTR_SIZE] at ho1 ⊢
      omega
    · simp only [PTR_SIZE] at ho1 ho2 ⊢
      omega
  · intro ho
    rw [memmove_out]
    left
    simp only [PTR_SIZE] at ho ⊢
    omega

/-- C2 witness: byte 16 of the destination equals byte 16 previously in
the source, for the concrete 48-byte records. -/
theorem c2_witness :
    move mem8is9 plainObjB plainObjA PTR_SIZE true 116 = mem8is9 16 :=
  (c2_move_copies mem8is9 plainObjB plainObjA 16 rfl rfl rfl).1
    (by decide) (by decide)

theorem lookupA_insert_self {α : Type} (l : List (Nat × α)) (k : Nat) (v : α) :
    lookupA (insertA l k v) k = some v := by
  simp [insertA, lookupA]

theorem lookupA_insert_ne {α : Type} (l : List (Nat × α)) (k n : Nat) (v : α)
    (h : k ≠ n) : lookupA (insertA l k v) n = lookupA l n := by
  simp [insertA, lookupA, h]

theorem lookupA_remove_self {α : Type} (l : List (Nat × α)) (n : Nat) :
    lookupA (removeA l n) n = none := by
  induction l with
  | nil => rfl
  | cons p t ih =>
    obtain ⟨k, v⟩ := p
    by_cases h : k = n
    · simp [removeA, h, ih]
    · simp [removeA, lookupA, h, ih]

theorem lookupA_remove_ne {α : Type} (l : List (Nat × α)) (n x : Nat)
    (h : x ≠ n) : lookupA (removeA l n) x = lookupA l x := by
  induction l with
  | nil => rfl
  | cons p t ih =>
    obtain ⟨k, v⟩ := p
    show lookupA (if k = n then removeA t n else (k, v) :: removeA t n) x =
      lookupA ((k, v) :: t) x
    by_cases hk : k = n
    · rw [if_pos hk, ih]
      show lookupA t x = if k = x then some v else lookupA t x
      rw [if_neg (by rw [hk]; exact fun he => h he.symm)]
    · rw [if_neg hk]
      show (if k = x then some v else lookupA (removeA t n) x) =
        if k = x then some v else lookupA t x
      by_cases hx : k = x
      · rw [if_pos hx, if_pos hx]
      · rw [if_neg hx, if_neg hx, ih]

theorem addDefault_of_none {α : Type} (l : List (Nat × α)) (k : Nat) (v : α)
    (h : lookupA l k = none) : addDefault l k v = insertA l k v := by
  simp [addDefault, h]

theorem addDefault_of_found {α : Type} (l : List (Nat × α)) (k : Nat) (v w : α)
    (h : lookupA l k = some w) : addDefault l k v = l := by
  simp [addDefault, h]

theorem resolve_none_parts (s : PatchState) (n : Nat)
    (h : resolve s n = none) :
    lookupA s.own n = none ∧ s.inherited n = none := by
  unfold resolve at h
  cases ho : lookupA s.own n with
  | some w => rw [ho] at h; cases h
  | none => rw [ho] at h; exact ⟨rfl, h⟩

theorem asMutable_insert (n v : Nat) (s : PatchState) :
    (asMutable (fun t => ({ t with own := insertA t.own n v }, none)) s).1 =
      { s with own := insertA s.own n v } := by
  rcases s with ⟨ow, inh, ca, im, fl⟩
  cases fl <;> simp [asMutable]

theorem asMutable_remove (n : Nat) (s : PatchState) :
    (asMutable (fun t => ({ t with own := removeA t.own n }, none)) s).1 =
      { s with own := removeA s.own n } := by
  rcases s with ⟨ow, inh, ca, im, fl⟩
  cases fl <;> simp [asMutable]

theorem resolve_projs (ow : List (Nat × Nat)) (inh : Nat → Option Nat)
    (ca : List (Nat × Option Nat)) (im : List Nat) (fl : Bool) (n : Nat) :
    resolve ⟨ow, inh, ca, im, fl⟩ n =
      match lookupA ow n with
      | some v => some v
      | none => inh n := rfl

theorem setItemT_eq (s : PatchState) (n : Nat) (v : Nat) :
    setItemT s n v =
      { s with own := insertA s.own n v
               cache := addDefault s.cache n (resolve s n)
               impls := if n ∈ s.impls then s.impls else n :: s.impls } := by
  rcases s with ⟨ow, inh, ca, im, fl⟩
  simp only [setItemT, addImplsT, tryCacheAttrT]
  rw [asMutable_insert]
  simp [resolve_projs]

theorem delItemT_eq (s : PatchState) (n : Nat) :
    delItemT s n =
      { s with own := removeA s.own n
               cache := addDefault s.cache n (resolve s n)
               impls := if n ∈ s.impls then s.impls else n :: s.impls } := by
  rcases s with ⟨ow, inh, ca, im, fl⟩
  simp only [delItemT, addImplsT, tryCacheAttrT]
  rw [asMutable_remove]
  simp [resolve_projs]

theorem mem_addImpls (l : List Nat) (n : Nat) :
    n ∈ (if n ∈ l then l else n :: l) := by
  split
  · assumption
  · exact List.mem_cons_self n l

theorem resolve_eq (t : PatchState) (n : Nat) :
    resolve t n =
      match lookupA t.own n with
      | some v => some v
      | none => t.inherited n := rfl

theorem restoreT_found (s : PatchState) (n w : Nat)
    (hm : n ∈ s.impls) (hc : lookupA s.cache n = some (some w)) :
    restoreT s n = (setItemT s n w, none) := by
  simp only [restoreT]
  rw [if_pos hm, hc]

theorem restoreT_missing (s : PatchState) (n : Nat)
    (hm : n ∈ s.impls) (hc : lookupA s.cache n = some none) :
    restoreT s n = (removeImplsT (delItemT s n) n, none) := by
  simp only [restoreT]
  rw [if_pos hm, hc]

theorem setRestoreRound (s : PatchState) (n v : Nat)
    (hc : lookupA s.cache n = none) :
    (restoreT (setItemT s n v) n).2 = none ∧
      resolve (restoreT (setItemT s n v) n).1 n = resolve s n ∧
      (resolve s n = none →
        lookupA (restoreT (setItemT s n v) n).1.own n = none) ∧
      (∀ x, x ≠ n →
        lookupA (restoreT (setItemT s n v) n).1.own x = lookupA s.own x) ∧
      (∀ x, x ≠ n →
        lookupA (restoreT (setItemT s n v) n).1.cache x = lookupA s.cache x) ∧
      (restoreT (setItemT s n v) n).1.inherited = s.inherited := by
  rcases s with ⟨ow, inh, ca, im, fl⟩
  simp only [lookupA] at hc
  have hset : setItemT ⟨ow, inh, ca, im, fl⟩ n v =
      ⟨insertA ow n v, inh, insertA ca n (resolve ⟨ow, inh, ca, im, fl⟩ n),
        if n ∈ im then im else n :: im, fl⟩ := by
    rw [setItemT_eq, addDefault_of_none _ _ _ hc]
  rw [hset]
  have hmem : n ∈ (if n ∈ im then im else n :: im) := mem_addImpls im n
  rcases hres : resolve ⟨ow, inh, ca, im, fl⟩ n with _ | w
  · -- previously absent: the MISSING sentinel is cached, restore deletes
    obtain ⟨hown0, hinh0⟩ := resolve_none_parts _ _ hres
    simp only at hown0 hinh0
    rw [restoreT_missing _ _ hmem (lookupA_insert_self _ _ _)]
    have hdel : delItemT ⟨insertA ow n v, inh, insertA ca n none,
        if n ∈ im then im else n :: im, fl⟩ n =
        ⟨removeA (insertA ow n v) n, inh,
          addDefault (insertA ca n none) n
            (resolve ⟨insertA ow n v, inh, insertA ca n none,
              if n ∈ im then im else n :: im, fl⟩ n),
          if n ∈ (if n ∈ im then im else n :: im) then
            (if n ∈ im then im else n :: im)
          else n :: (if n ∈ im then im else n :: im), fl⟩ := by
      rw [delItemT_eq]
    rw [hdel, addDefault_of_found _ _ _ _ (lookupA_insert_self _ _ _)]
    refine ⟨by trivial, ?_, ?_, ?_, ?_, by trivial⟩
    · simp only [removeImplsT, resolve_eq, lookupA_remove_self]
      exact hinh0
    · intro _
      exact lookupA_remove_self _ _
    · intro x hx
      simp only [removeImplsT]
      rw [lookupA_remove_ne _ _ _ hx,
        lookupA_insert_ne _ _ _ _ (fun he => hx he.symm)]
    · intro x hx
      simp only [removeImplsT]
      rw [lookupA_insert_ne _ _ _ _ (fun he => hx he.symm)]
  · -- a prior value was cached: restore writes it back
    rw [restoreT_found _ _ w hmem (lookupA_insert_self _ _ _)]
    have hres1 : resolve ⟨insertA ow n v, inh, insertA ca n (some w),
        if n ∈ im then im else n :: im, fl⟩ n = some v := by
      simp [resolve_eq, lookupA_insert_self]
    rw [setItemT_eq, hres1, addDefault_of_found _ _ _ _ (lookupA_insert_self _ _ _)]
    refine ⟨by trivial, ?_, ?_, ?_, ?_, by trivial⟩
    · simp [resolve_eq, lookupA_insert_self]
    · intro hcontra
      cases hcontra
    · intro x hx
      simp only []
      rw [lookupA_insert_ne _ _ _ _ (fun he => hx he.symm),
        lookupA_insert_ne _ _ _ _ (fun he => hx he.symm)]
    · intro x hx
      simp only []
      rw [lookupA_insert_ne _ _ _ _ (fun he => hx he.symm)]

/-- C6: a `set` through the type view followed by `restore` of the same
name restores the exact prior resolved value — or removes the attribute
entirely when it was previously absent (the `MISSING` sentinel captured
on first overwrite) — and a subsequent `set`/`restore` pair for a
different name neither fails nor disturbs the first name's restored
state. -/
theorem c6_set_restore_pairs (s0 : PatchState) (n1 n2 v1 v2 : Nat)
    (hne : n1 ≠ n2)
    (hc1 : lookupA s0.cache n1 = none)
    (hc2 : lookupA s0.cache n2 = none) :
    (restoreT (setItemT s0 n1 v1) n1).2 = none ∧
      resolve (restoreT (setItemT s0 n1 v1) n1).1 n1 = resolve s0 n1 ∧
      (resolve s0 n1 = none →
        lookupA (restoreT (setItemT s0 n1 v1) n1).1.own n1 = none) ∧
      (restoreT (setItemT (restoreT (setItemT s0 n1 v1) n1).1 n2 v2) n2).2 =
        none ∧
      resolve (restoreT (setItemT (restoreT (setItemT s0 n1 v1) n1).1 n2 v2)
          n2).1 n2 = resolve s0 n2 ∧
      resolve (restoreT (setItemT (restoreT (setItemT s0 n1 v1) n1).1 n2 v2)
          n2).1 n1 = resolve (restoreT (setItemT s0 n1 v1) n1).1 n1 ∧
      (resolve s0 n2 = none →
        lookupA (restoreT (setItemT (restoreT (setItemT s0 n1 v1) n1).1 n2 v2)
          n2).1.own n2 = none) := by
  obtain ⟨h1err, h1res, h1absent, h1ownx, h1cachex, h1inh⟩ :=
    setRestoreRound s0 n1 v1 hc1
  have hn21 : n2 ≠ n1 := fun he => hne he.symm
  have hc2' : lookupA (restoreT (setItemT s0 n1 v1) n1).1.cache n2 = none := by
    rw [h1cachex n2 hn21]
    exact hc2
  obtain ⟨h2err, h2res, h2absent, h2ownx, h2cachex, h2inh⟩ :=
    setRestoreRound (restoreT (setItemT s0 n1 v1) n1).1 n2 v2 hc2'
  have hres2 : resolve (restoreT (setItemT s0 n1 v1) n1).1 n2 = resolve s0 n2 := by
    rw [resolve_eq, resolve_eq, h1ownx n2 hn21, h1inh]
  refine ⟨h1err, h1res, h1absent, h2err, ?_, ?_, ?_⟩
  · rw [h2res, hres2]
  · rw [resolve_eq, resolve_eq, h2ownx n1 hne, h2inh]
  · intro h0
    exact h2absent (by rw [hres2]; exact h0)

/-- C6 witness: the fresh patch state, keys 1 and 2. -/
theorem c6_witness :
    (restoreT (setItemT patchS0 1 10) 1).2 = none ∧
      resolve (restoreT (setItemT patchS0 1 10) 1).1 1 = resolve patchS0 1 :=
  ⟨(c6_set_restore_pairs patchS0 1 2 10 20 (by decide) rfl rfl).1,
    (c6_set_restore_pairs patchS0 1 2 10 20 (by decide) rfl rfl).2.1⟩

theorem swapRaw_plain (m : Mem) (self other : View) (b : Int)
    (hS : self.obj.isAscii = false) (hO : other.obj.isAscii = false)
    (hSd : self.obj.instDict = none) (hOd : other.obj.instDict = none) :
    swapRaw m self other b =
      memmove (memmove (memmove (incRef m other.obj)
            b other.obj.address other.obj.mem_size)
          (other.obj.address + (PTR_SIZE : Int))
          (self.obj.address + (PTR_SIZE : Int))
          (self.obj.mem_size - PTR_SIZE))
        (self.obj.address + (PTR_SIZE : Int)) (b + (PTR_SIZE : Int))
        (other.obj.mem_size - PTR_SIZE) := by
  simp only [swapRaw, hOd]
  rw [move_plain _ _ _ _ hS hO hSd]
  rw [move_plain _ self.obj
    { address := b, mem_size := other.obj.mem_size, isAscii := other.obj.isAscii
      gcFlag := other.obj.gcFlag, instDict := none
      managedDict := other.obj.managedDict } false hO hS rfl]

theorem check_move_mk_plain (x y : PyObj)
    (hx : x.instDict = none) (hy : y.instDict = none) :
    check_move (mkView x) (mkView y) =
      if y.gcFlag = false ∧ x.gcFlag = true then some MoveError.nonGcIntoGc
      else if align_size x.mem_size < y.mem_size then some MoveError.cannotFit
      else none :=
  check_move_noDict (mkView x) (mkView y) hx hy

theorem check_none_parts (x y : PyObj)
    (hx : x.instDict = none) (hy : y.instDict = none)
    (h : check_move (mkView x) (mkView y) = none) :
    ¬(y.gcFlag = false ∧ x.gcFlag = true) ∧
      y.mem_size ≤ align_size x.mem_size := by
  rw [check_move_mk_plain x y hx hy] at h
  by_cases h1 : y.gcFlag = false ∧ x.gcFlag = true
  · rw [if_pos h1] at h
    cases h
  · rw [if_neg h1] at h
    by_cases h2 : align_size x.mem_size < y.mem_size
    · rw [if_pos h2] at h
      cases h
    · exact ⟨h1, by omega⟩

/-- C3 (amended): for two live records that pass `check_move` in both
directions with no capability bypass (flags off), `swap` twice restores
every byte of `a` (header included) and every payload byte of `b` —
all bytes except `b`'s header reference-count word, which carries `b`'s
own accounting: each swap IncRef-s the swapped-out side, so that word is
incremented, not restored.  Hypotheses: non-string records without
instance dicts, records and the two temporary buffers pairwise disjoint
within their allocated footprints. -/
theorem c3_double_swap_restores (m : Mem) (a b : PyObj) (b1 b2 : Int)
    (haA : a.isAscii = false) (hbA : b.isAscii = false)
    (haD : a.instDict = none) (hbD : b.instDict = none)
    (h8N : 8 ≤ a.mem_size) (h8K : 8 ≤ b.mem_size)
    (hchk1 : check_move (mkView a) (mkView b) = none)
    (hchk2 : check_move (mkView b) (mkView a) = none)
    (hAB : a.address + (align_size a.mem_size : Int) ≤ b.address ∨
      b.address + (align_size b.mem_size : Int) ≤ a.address)
    (hAb1 : a.address + (align_size a.mem_size : Int) ≤ b1 ∨
      b1 + (b.mem_size : Int) ≤ a.address)
    (hBb1 : b.address + (align_size b.mem_size : Int) ≤ b1 ∨
      b1 + (b.mem_size : Int) ≤ b.address)
    (hAb2 : a.address + (align_size a.mem_size : Int) ≤ b2 ∨
      b2 + (a.mem_size : Int) ≤ a.address)
    (hBb2 : b.address + (align_size b.mem_size : Int) ≤ b2 ∨
      b2 + (a.mem_size : Int) ≤ b.address) :
    (doubleSwapChecked m a b b1 b2).2.1 = none ∧
      (doubleSwapChecked m a b b1 b2).2.2 = none ∧
      (∀ o : Nat, o < a.mem_size →
        (doubleSwapChecked m a b b1 b2).1 (a.address + (o : Int)) =
          m (a.address + (o : Int))) ∧
      (∀ o : Nat, 8 ≤ o → o < b.mem_size →
        (doubleSwapChecked m a b b1 b2).1 (b.address + (o : Int)) =
          m (b.address + (o : Int))) := by
  obtain ⟨hgc1, hfit1⟩ := check_none_parts a b haD hbD hchk1
  obtain ⟨hgc2, hfit2⟩ := check_none_parts b a hbD haD hchk2
  have hNal := (align_size_spec a.mem_size).1
  have hKal := (align_size_spec b.mem_size).1
  have hs1 : swapChecked false m (mkView a) (mkView b) b1 =
      (swapRaw m (mkView a) (mkView b) b1, none) := by
    simp only [swapChecked]
    rw [show (mkView a).isUnsafeCtx false = false from rfl, if_pos rfl,
      hchk1, hchk2]
  have hchk1' : check_move (mkView { b with address := a.address })
      (mkView { a with address := b.address }) = none := by
    rw [check_move_mk_plain { b with address := a.address }
      { a with address := b.address } hbD haD, if_neg hgc2,
      if_neg (Nat.not_lt.mpr hfit2)]
  have hchk2' : check_move (mkView { a with address := b.address })
      (mkView { b with address := a.address }) = none := by
    rw [check_move_mk_plain { a with address := b.address }
      { b with address := a.address } haD hbD, if_neg hgc1,
      if_neg (Nat.not_lt.mpr hfit1)]
  have hs2 : swapChecked false (swapRaw m (mkView a) (mkView b) b1)
      (mkView { b with address := a.address })
      (mkView { a with address := b.address }) b2 =
      (swapRaw (swapRaw m (mkView a) (mkView b) b1)
        (mkView { b with address := a.address })
        (mkView { a with address := b.address }) b2, none) := by
    simp only [swapChecked]
    rw [show (mkView { b with address := a.address }).isUnsafeCtx false = false
      from rfl, if_pos rfl, hchk1', hchk2']
  have hds : doubleSwapChecked m a b b1 b2 =
      (swapRaw (swapRaw m (mkView a) (mkView b) b1)
        (mkView { b with address := a.address })
        (mkView { a with address := b.address }) b2, none, none) := by
    simp [doubleSwapChecked, hs1, hs2]
  have hraw2 : ∀ mm : Mem,
      swapRaw mm (mkView { b with address := a.address })
        (mkView { a with address := b.address }) b2 =
      memmove (memmove (memmove (incRef mm { a with address := b.address })
            b2 b.address a.mem_size)
          (b.address + (8 : Int)) (a.address + (8 : Int)) (b.mem_size - 8))
        (a.address + (8 : Int)) (b2 + (8 : Int)) (a.mem_size - 8) := by
    intro mm
    rw [swapRaw_plain mm _ _ b2 hbA haA hbD haD]
    rfl
  have hM : (doubleSwapChecked m a b b1 b2).1 =
      memmove (memmove (memmove (incRef
          (memmove (memmove (memmove (incRef m b) b1 b.address b.mem_size)
              (b.address + (8 : Int)) (a.address + (8 : Int))
              (a.mem_size - 8))
            (a.address + (8 : Int)) (b1 + (8 : Int)) (b.mem_size - 8))
          { a with address := b.address }) b2 b.address a.mem_size)
        (b.address + (8 : Int)) (a.address + (8 : Int)) (b.mem_size - 8))
        (a.address + (8 : Int)) (b2 + (8 : Int)) (a.mem_size - 8) := by
    rw [hds]
    show swapRaw (swapRaw m (mkView a) (mkView b) b1)
      (mkView { b with address := a.address })
      (mkView { a with address := b.address }) b2 = _
    rw [hraw2, swapRaw_plain m (mkView a) (mkView b) b1 haA hbA haD hbD]
    rfl
  have haddr2 : ({ a with address := b.address } : PyObj).address =
    b.address := rfl
  have hP : (PTR_SIZE : Int) = 8 := rfl
  set q1 := incRef m b with hq1
  set q2 := memmove q1 b1 b.address b.mem_size with hq2
  set q3 := memmove q2 (b.address + (8 : Int)) (a.address + (8 : Int))
    (a.mem_size - 8) with hq3
  set q4 := memmove q3 (a.address + (8 : Int)) (b1 + (8 : Int))
    (b.mem_size - 8) with hq4
  set q5 := incRef q4 { a with address := b.address } with hq5
  set q6 := memmove q5 b2 b.address a.mem_size with hq6
  set q7 := memmove q6 (b.address + (8 : Int)) (a.address + (8 : Int))
    (b.mem_size - 8) with hq7
  set q8 := memmove q7 (a.address + (8 : Int)) (b2 + (8 : Int))
    (a.mem_size - 8) with hq8
  refine ⟨by rw [hds], by rw [hds], ?_, ?_⟩
  · intro o ho
    rw [hM]
    by_cases ho8 : 8 ≤ o
    · rw [hq8, memmove_in _ _ _ _ _ (by omega) (by omega)]
      have e1 : b2 + (8 : Int) + (a.address + (o : Int) - (a.address + 8)) =
        b2 + (o : Int) := by ring
      rw [e1, hq7, memmove_out _ _ _ _ _ (by omega)]
      rw [hq6, memmove_in _ _ _ _ _ (by omega) (by omega)]
      have e2 : b.address + (b2 + (o : Int) - b2) = b.address + (o : Int) := by
        ring
      rw [e2, hq5, incRef_out _ _ _ (by rw [haddr2, hP]; omega)]
      rw [hq4, memmove_out _ _ _ _ _ (by omega)]
      rw [hq3, memmove_in _ _ _ _ _ (by omega) (by omega)]
      have e3 : a.address + (8 : Int) + (b.address + (o : Int) -
        (b.address + 8)) = a.address + (o : Int) := by ring
      rw [e3, hq2, memmove_out _ _ _ _ _ (by omega)]
      rw [hq1, incRef_out _ _ _ (by rw [hP]; omega)]
    · rw [hq8, memmove_out _ _ _ _ _ (by omega)]
      rw [hq7, memmove_out _ _ _ _ _ (by omega)]
      rw [hq6, memmove_out _ _ _ _ _ (by omega)]
      rw [hq5, incRef_out _ _ _ (by rw [haddr2, hP]; omega)]
      rw [hq4, memmove_out _ _ _ _ _ (by omega)]
      rw [hq3, memmove_out _ _ _ _ _ (by omega)]
      rw [hq2, memmove_out _ _ _ _ _ (by omega)]
      rw [hq1, incRef_out _ _ _ (by rw [hP]; omega)]
  · intro o ho8 ho
    rw [hM]
    rw [hq8, memmove_out _ _ _ _ _ (by omega)]
    rw [hq7, memmove_in _ _ _ _ _ (by omega) (by omega)]
    have e4 : a.address + (8 : Int) + (b.address + (o : Int) -
      (b.address + 8)) = a.address + (o : Int) := by ring
    rw [e4, hq6, memmove_out _ _ _ _ _ (by omega)]
    rw [hq5, incRef_out _ _ _ (by rw [haddr2, hP]; omega)]
    rw [hq4, memmove_in _ _ _ _ _ (by omega) (by omega)]
    have e5 : b1 + (8 : Int) + (a.address + (o : Int) - (a.address + 8)) =
      b1 + (o : Int) := by ring
    rw [e5, hq3, memmove_out _ _ _ _ _ (by omega)]
    rw [hq2, memmove_in _ _ _ _ _ (by omega) (by omega)]
    have e6 : b.address + (b1 + (o : Int) - b1) = b.address + (o : Int) := by
      ring
    rw [e6, hq1, incRef_out _ _ _ (by rw [hP]; omega)]

/-- C3 counterexample: two 16-byte records passing all checks both ways;
after `swap` twice the header reference-count byte of `b` (address 100)
reads 2, not its original 0 — each swap IncRef-ed the swapped-out side —
so the objects are not restored to their original byte contents. -/
theorem c3_counterexample :
    (doubleSwapChecked memPay5 tinyObjA tinyObjB 200 300).2.1 = none ∧
      (doubleSwapChecked memPay5 tinyObjA tinyObjB 200 300).2.2 = none ∧
      (doubleSwapChecked memPay5 tinyObjA tinyObjB 200 300).1 100 ≠
        memPay5 100 := by
  refine ⟨by decide, by decide, by decide⟩

/-- C3 witness: payload byte 9 of `a` is restored by the double swap of
the two concrete 16-byte records. -/
theorem c3_witness :
    (doubleSwapChecked memPay5 tinyObjA tinyObjB 200 300).1
        (tinyObjA.address + ((9 : Nat) : Int)) =
      memPay5 (tinyObjA.address + ((9 : Nat) : Int)) :=
  (c3_double_swap_restores memPay5 tinyObjA tinyObjB 200 300 rfl rfl rfl rfl
    (by decide) (by decide) (by decide) (by decide) (by decide) (by decide)
    (by decide) (by decide) (by decide)).2.2.1 9 (by decide)
